import Mathlib

/-!
# Verification of the LinkedIn retriever core (gpt-researcher)

Shallow embedding of the three core components of the repository's LinkedIn
retriever:

* `RateLimiter` (src/gpt_researcher/retrievers/linkedin/rate_limiter.py):
  persistent quota/backoff state machine.
* the intent / keyword optimizer helpers and
* the progressive-fallback search controller
  (src/gpt_researcher/retrievers/linkedin/linkedin_sales_navigator.py).

Modelling conventions:

* Wall-clock instants (Python `time.time()` floats) are rationals `ℚ`.
* Calendar dates (`str(datetime.now().date())`) and hours (`datetime.now().hour`)
  are abstract identifiers `ℕ`; the code only ever compares them for equality.
* Random draws (`random.gauss`, `random.uniform`) are passed in explicitly as
  parameters; a `uniform(-a, a)` draw is modelled as `u * a` with `u ∈ [-1, 1]`.
* Persistence (`save_state` / `load_state`) is the identity on the state value:
  the JSON round trip stores exactly the fields of the state record.
* `f"...{x:.0f}..."` float formatting is modelled by rounding to the nearest
  integer; no claim depends on the rounded digits.
* Python string handling (`str.lower`, `str.isalnum`, `str.split`) is modelled
  with Lean's ASCII-scoped primitives, which agree with Python on ASCII text.
-/

namespace GptResearcher

/-- The `self.limits` dictionary of `RateLimiter.__init__`. -/
structure Limits where
  searches_per_day : ℕ
  profiles_per_day : ℕ
  connection_requests_per_day : ℕ
  searches_per_hour : ℕ
  profiles_per_hour : ℕ
  min_delay_between_searches : ℚ
  max_delay_between_searches : ℚ
  min_delay_between_profiles : ℚ
  max_delay_between_profiles : ℚ
  backoff_multiplier : ℚ
  max_backoff : ℚ
  jitter_range : ℚ
  max_continuous_searches : ℕ
  break_duration_min : ℚ
  break_duration_max : ℚ
  deriving Repr, DecidableEq

/-- The conservative default limits from `RateLimiter.__init__`. -/
def defaultLimits : Limits :=
  { searches_per_day := 15
    profiles_per_day := 30
    connection_requests_per_day := 20
    searches_per_hour := 3
    profiles_per_hour := 10
    min_delay_between_searches := 45
    max_delay_between_searches := 180
    min_delay_between_profiles := 5
    max_delay_between_profiles := 30
    backoff_multiplier := 2
    max_backoff := 3600
    jitter_range := 1/5
    max_continuous_searches := 5
    break_duration_min := 300
    break_duration_max := 900 }

/-- The persisted `self.state` dictionary of `RateLimiter`, together with the
in-memory session attribute `self.continuous_actions` (which lives on the
`RateLimiter` object, not in the persisted JSON document, but is mutated by
`reset_if_needed`). -/
structure RLState where
  daily_searches : ℕ
  daily_profiles : ℕ
  daily_connections : ℕ
  hourly_searches : ℕ
  hourly_profiles : ℕ
  last_search_time : ℚ
  last_profile_time : ℚ
  last_reset_date : ℕ
  last_hour_reset : ℕ
  consecutive_failures : ℕ
  total_failures_today : ℕ
  last_break_time : ℚ
  continuous_searches : ℕ
  blocked_until : ℚ
  continuous_actions : ℕ
  deriving Repr, DecidableEq

/-- The default state returned by `load_state` when no file exists. -/
def initialRLState (date hour : ℕ) : RLState :=
  { daily_searches := 0
    daily_profiles := 0
    daily_connections := 0
    hourly_searches := 0
    hourly_profiles := 0
    last_search_time := 0
    last_profile_time := 0
    last_reset_date := date
    last_hour_reset := hour
    consecutive_failures := 0
    total_failures_today := 0
    last_break_time := 0
    continuous_searches := 0
    blocked_until := 0
    continuous_actions := 0 }

/-- `RateLimiter.reset_if_needed`: daily rollover (zero the daily counters and
today's failures, decrement `consecutive_failures` floored at zero, stamp the
new date, zero the in-memory `continuous_actions`), then, independently, hourly
rollover (zero the hourly counters, stamp the new hour).  Note that the daily
branch assigns `self.continuous_actions = 0`, not
`self.state["continuous_searches"]`. -/
def reset_if_needed (nowDate nowHour : ℕ) (s : RLState) : RLState :=
  let s1 :=
    if nowDate ≠ s.last_reset_date then
      { s with
        daily_searches := 0
        daily_profiles := 0
        daily_connections := 0
        total_failures_today := 0
        last_reset_date := nowDate
        consecutive_failures := s.consecutive_failures - 1
        continuous_actions := 0 }
    else s
  if nowHour ≠ s1.last_hour_reset then
    { s1 with hourly_searches := 0, hourly_profiles := 0, last_hour_reset := nowHour }
  else s1

/-- Models Python's `f"{x:.0f}"` formatting of a wait time. -/
def fmt0 (q : ℚ) : String := toString (round q)

/-- `RateLimiter.can_search`.  `breakDraw` is the
`random.uniform(break_duration_min, break_duration_max)` draw used by the
break check.  Returns the decision, the reason string and the mutated state. -/
def can_search (limits : Limits) (now : ℚ) (nowDate nowHour : ℕ) (breakDraw : ℚ)
    (s : RLState) : Bool × String × RLState :=
  let s1 := reset_if_needed nowDate nowHour s
  if s1.blocked_until > now then
    (false, "Temporarily blocked for " ++ fmt0 (s1.blocked_until - now) ++
      " seconds due to failures", s1)
  else if s1.daily_searches ≥ limits.searches_per_day then
    (false, "Daily search limit reached (" ++ toString limits.searches_per_day ++
      " searches)", s1)
  else if s1.hourly_searches ≥ limits.searches_per_hour then
    (false, "Hourly search limit reached (" ++ toString limits.searches_per_hour ++
      " searches)", s1)
  else
    let afterBreak : Option RLState :=
      if s1.continuous_searches ≥ limits.max_continuous_searches then
        let time_since_break := now - s1.last_break_time
        if time_since_break < breakDraw then none
        else some { s1 with continuous_searches := 0, last_break_time := now }
      else some s1
    match afterBreak with
    | none =>
        (false, "Break required. Please wait " ++
          fmt0 (breakDraw - (now - s1.last_break_time)) ++ " seconds", s1)
    | some s2 =>
        let time_since_last := now - s2.last_search_time
        let min_delay :=
          if s2.consecutive_failures > 0 then
            min (limits.min_delay_between_searches *
                  limits.backoff_multiplier ^ s2.consecutive_failures)
              limits.max_backoff
          else limits.min_delay_between_searches
        if time_since_last < min_delay then
          (false, "Please wait " ++ fmt0 (min_delay - time_since_last) ++
            " seconds before next search", s2)
        else if s2.total_failures_today ≥ 10 then
          (false, "Too many failures today. Please try again tomorrow", s2)
        else
          (true, "OK", s2)

/-- `RateLimiter.can_view_profile`. -/
def can_view_profile (limits : Limits) (now : ℚ) (nowDate nowHour : ℕ)
    (s : RLState) : Bool × String × RLState :=
  let s1 := reset_if_needed nowDate nowHour s
  if s1.daily_profiles ≥ limits.profiles_per_day then
    (false, "Daily profile view limit reached (" ++ toString limits.profiles_per_day ++
      " profiles)", s1)
  else if s1.hourly_profiles ≥ limits.profiles_per_hour then
    (false, "Hourly profile view limit reached (" ++ toString limits.profiles_per_hour ++
      " profiles)", s1)
  else
    let time_since_last := now - s1.last_profile_time
    if time_since_last < limits.min_delay_between_profiles then
      (false, "Please wait " ++ fmt0 (limits.min_delay_between_profiles - time_since_last) ++
        " seconds before next profile view", s1)
    else
      (true, "OK", s1)

/-- `RateLimiter.record_search`: bump the search counters and timestamps; a
success clears `consecutive_failures`; a failure increments the failure
counters and, once `consecutive_failures` reaches 3, recomputes
`blocked_until := now + min (300 * 2 ^ (consecutive_failures - 3)) 3600`. -/
def record_search (success : Bool) (now : ℚ) (s : RLState) : RLState :=
  let s1 := { s with
    daily_searches := s.daily_searches + 1
    hourly_searches := s.hourly_searches + 1
    last_search_time := now
    continuous_searches := s.continuous_searches + 1 }
  if success then
    { s1 with consecutive_failures := 0 }
  else
    let s2 := { s1 with
      consecutive_failures := s1.consecutive_failures + 1
      total_failures_today := s1.total_failures_today + 1 }
    if s2.consecutive_failures ≥ 3 then
      let block_duration : ℚ :=
        min (300 * 2 ^ (s2.consecutive_failures - 3)) 3600
      { s2 with blocked_until := now + block_duration }
    else s2

/-- `RateLimiter.record_profile_view`. -/
def record_profile_view (success : Bool) (now : ℚ) (s : RLState) : RLState :=
  let s1 := { s with
    daily_profiles := s.daily_profiles + 1
    hourly_profiles := s.hourly_profiles + 1
    last_profile_time := now }
  if success then s1
  else { s1 with total_failures_today := s1.total_failures_today + 1 }

/-- The `min_delay` selected by `get_delay` for the action type. -/
def min_delay_for (limits : Limits) (isSearch : Bool) : ℚ :=
  if isSearch then limits.min_delay_between_searches
  else limits.min_delay_between_profiles

/-- The `max_delay` selected by `get_delay` for the action type. -/
def max_delay_for (limits : Limits) (isSearch : Bool) : ℚ :=
  if isSearch then limits.max_delay_between_searches
  else limits.max_delay_between_profiles

/-- `RateLimiter.get_delay`.  `gaussDraw` is the `random.gauss(mean, std_dev)`
draw; `u ∈ [-1, 1]` is the normalized `random.uniform(-jitter_amount,
jitter_amount)` draw, so the jitter added is `u * (base * jitter_range)`. -/
def get_delay (limits : Limits) (isSearch : Bool) (gaussDraw u : ℚ)
    (consecutive_failures : ℕ) : ℚ :=
  let min_delay := min_delay_for limits isSearch
  let max_delay := max_delay_for limits isSearch
  let base_delay := max min_delay (min max_delay gaussDraw)
  let jitter_amount := base_delay * limits.jitter_range
  let jitter := u * jitter_amount
  let base_delay' :=
    if consecutive_failures > 0 then
      min (base_delay * limits.backoff_multiplier ^ consecutive_failures)
        limits.max_backoff
    else base_delay
  max min_delay (base_delay' + jitter)

/-- `RateLimiter.reset_session`. -/
def reset_session (now : ℚ) (s : RLState) : RLState :=
  { s with continuous_searches := 0, last_break_time := now, continuous_actions := 0 }

/-- `RateLimiter.emergency_stop`: block for one hour and set a high failure
count. -/
def emergency_stop (now : ℚ) (s : RLState) : RLState :=
  { s with blocked_until := now + 3600, consecutive_failures := 5 }

/-! ## Intent parsing helpers (`linkedin_sales_navigator.py`) -/

/-- The intent dictionary produced by `LinkedInSalesNavigator.parse_intent`:
lists of matched roles, skills, locations and seniority terms, the optional
`company_criteria` entries (`size` and `funding`), and the normalized raw
query text `keywords_raw`. -/
structure Intent where
  roles : List String
  skills : List String
  locations : List String
  company_size : Option String
  company_funding : Option String
  seniority : List String
  keywords_raw : String
  deriving Repr, DecidableEq

/-- Python's `sep.join(parts)`. -/
def joinSep (sep : String) : List String → String
  | [] => ""
  | [s] => s
  | s :: ss => s ++ sep ++ joinSep sep ss

/-- The multilingual stop-word set of `_extract_simple_keywords` (the last
seven entries embed the file's literal characters by code point). -/
def stop_words : List String :=
  ["the", "and", "or", "in", "on", "at", "to", "for", "of", "with", "by",
   "ÑÐºÐ»Ð°Ð´Ð¸",
   "Ð±ÑƒÐ´ÑŒ",
   "Ð»Ð°ÑÐºÐ°",
   "ÑÐ¿Ð¸ÑÐ¾Ðº",
   "ÑÐºÑ–",
   "Ð¼Ð°ÑŽÑ‚ÑŒ",
   "ÑˆÑƒÐºÐ°ÑŽÑ‚ÑŒ"]

/-- Split a character list at whitespace runs (structural-recursion model of
Python's `str.split()`; empty chunks are filtered out by the caller). -/
def splitWsAux : List Char → List (List Char)
  | [] => [[]]
  | c :: cs =>
    match splitWsAux cs, c.isWhitespace with
    | ws, true => [] :: ws
    | [], false => [[c]]
    | w :: ws, false => (c :: w) :: ws

/-- `LinkedInSalesNavigator._extract_simple_keywords`: lowercase, split on
whitespace, strip each word to its alphanumeric characters, keep words longer
than 2 characters that are not stop words. -/
def extract_simple_keywords (query : String) : List String :=
  let words :=
    ((splitWsAux (query.data.map Char.toLower)).map (fun w => String.mk w)).filter
      (fun w => w ≠ "")
  (words.map (fun w => String.mk (w.data.filter Char.isAlphanum))).filter
    (fun w => w.length > 2 ∧ w ∉ stop_words)

/-- `LinkedInSalesNavigator.generate_optimized_keywords`: at most the first 2
roles, quoted and OR-joined in parentheses; at most the first 2 skills,
OR-joined, prefixed with `AND` when a role clause exists; fallback to up to 2
simple keywords OR-joined when neither matched. -/
def generate_optimized_keywords (intent : Intent) : String :=
  let roleParts : List String :=
    if intent.roles ≠ [] then
      let role_string :=
        joinSep " OR " ((intent.roles.take 2).map
          (fun role => "\"" ++ role ++ "\""))
      ["(" ++ role_string ++ ")"]
    else []
  let keyword_parts : List String :=
    roleParts ++
      (if intent.skills ≠ [] then
        let skills_string := joinSep " OR " (intent.skills.take 2)
        if roleParts ≠ [] then ["AND (" ++ skills_string ++ ")"]
        else [skills_string]
      else [])
  if keyword_parts = [] then
    joinSep " OR " ((extract_simple_keywords intent.keywords_raw).take 2)
  else
    joinSep " " keyword_parts

/-- `LinkedInSalesNavigator._create_or_broadening_query`: up to 3 major OR
groups built from roles (≤3, quoted), skills (≤3), a fixed seniority term set
(≤3) and funding terms, OR-joined; generic fallback when no group applies. -/
def create_or_broadening_query (intent : Intent) : String :=
  let or_parts : List String :=
    (if intent.roles ≠ [] then
      ["(" ++ joinSep " OR "
        ((intent.roles.take 3).map (fun role => "\"" ++ role ++ "\"")) ++ ")"]
    else []) ++
    (if intent.skills ≠ [] then
      ["(" ++ joinSep " OR " (intent.skills.take 3) ++ ")"]
    else []) ++
    (if intent.seniority ≠ [] then
      ["(" ++ joinSep " OR "
        ((["founder", "CEO", "CTO", "director", "manager"]).take 3) ++ ")"]
    else []) ++
    (if intent.company_funding.isSome then
      ["(" ++ joinSep " OR " ["startup", "funded", "investment"] ++ ")"]
    else [])
  if or_parts = [] then "developer OR engineer OR founder OR manager"
  else joinSep " OR " (or_parts.take 3)

/-- `LinkedInSalesNavigator._create_or_broadening_filters`: keep only the
location filter (when any) and the current-job-title filter. -/
def create_or_broadening_filters (intent : Intent) : List (String × String) :=
  (if intent.locations ≠ [] then
    [("geoIncluded", joinSep "," intent.locations)]
  else []) ++ [("currentJobTitle", "true")]

/-! ## Progressive-fallback search controller -/

/-- The `original_criteria` metadata attached to broadened results: strategy 4
attaches a dictionary of selected intent fields, strategy 5 attaches the whole
intent. -/
inductive OrigCriteria where
  | selected (roles locations : List String) (company_size company_funding : Option String)
      (seniority skills : List String)
  | full (intent : Intent)
  deriving Repr, DecidableEq

/-- A search result record: the raw extracted fields plus the optional
metadata keys the controller may attach (`ai_filter_needed`,
`search_strategy`, `original_criteria`). -/
structure SNResult where
  fields : List (String × String)
  ai_filter_needed : Option Bool := none
  search_strategy : Option String := none
  original_criteria : Option OrigCriteria := none
  deriving Repr, DecidableEq

/-- The `filters` dictionary produced by `parse_query_filters`: optimized
keywords, native LinkedIn filters, and the intent kept for fallback use. -/
structure SearchFilters where
  keywords : String
  native_filters : List (String × String)
  intent : Intent
  deriving Repr, DecidableEq

/-- Observable external interactions of the controller: a page fetch plus
extraction for one ladder level, a `can_search` consultation of the
RateLimiter, or a `record_search` report to the RateLimiter.  The source of
`search_with_progressive_fallback` only ever performs the first kind. -/
inductive SNEvent where
  | fetchAttempt (level : ℕ) (keywords : String)
      (native : List (String × String)) (count : ℕ)
  | canSearchCall
  | recordSearchCall (success : Bool)
  deriving Repr, DecidableEq

/-- The injected page-fetch + result-extraction collaborator
(`self.driver.get` followed by `self._extract_search_results`), abstracted
over the ladder level, search type, constructed keywords/native filters and
requested result count; a raised exception is an `Except.error`. -/
def FetchExtract : Type :=
  ℕ → String → String → List (String × String) → ℕ → Except String (List SNResult)

/-- Python `dict.get(key, default)` on an association list. -/
def dictGetD (l : List (String × String)) (key dflt : String) : String :=
  match l.find? (fun p => p.1 = key) with
  | some p => p.2
  | none => dflt

/-- One `try: driver.get(url); results = self._extract_search_results(...)`
block of the controller: record the fetch attempt, and yield the results when
extraction succeeded with a non-empty list; a caught exception or an empty
extraction yields `none` so the ladder advances. -/
def tryLevel (fetch : FetchExtract) (searchType : String) (ev : List SNEvent)
    (level : ℕ) (keywords : String) (native : List (String × String))
    (count : ℕ) : List SNEvent × Option (List SNResult) :=
  let ev' := ev ++ [SNEvent.fetchAttempt level keywords native count]
  match fetch level searchType keywords native count with
  | Except.ok results => (ev', if results = [] then none else some results)
  | Except.error _ => (ev', none)

/-- The strategy-4 result tagging: `ai_filter_needed = True` and
`original_criteria` echoing selected intent fields. -/
def tagBroadening (intent : Intent) (r : SNResult) : SNResult :=
  { r with
    ai_filter_needed := some true
    original_criteria := some (OrigCriteria.selected intent.roles intent.locations
      intent.company_size intent.company_funding intent.seniority intent.skills) }

/-- The strategy-5 result tagging: `ai_filter_needed = True`,
`search_strategy = "ultra_broad"` and `original_criteria` echoing the whole
intent. -/
def tagUltraBroad (intent : Intent) (r : SNResult) : SNResult :=
  { r with
    ai_filter_needed := some true
    search_strategy := some "ultra_broad"
    original_criteria := some (OrigCriteria.full intent) }

/-- `LinkedInSalesNavigator.search_with_progressive_fallback`: walk the
five-strategy ladder, returning the first non-empty result set (strategies 4
and 5 tag their results for AI post-filtering), or the empty list after
exhaustion.  Strategy 2 is skipped when no simple keywords could be
extracted; strategy 5 is skipped when the intent has no locations.  The
second component is the trace of external interactions performed. -/
def search_with_progressive_fallback (fetch : FetchExtract) (searchType : String)
    (filters : SearchFilters) (maxResults : ℕ) : List SNResult × List SNEvent :=
  let intent := filters.intent
  -- Strategy 1: full optimized search
  let t1 := tryLevel fetch searchType [] 1 filters.keywords filters.native_filters
    maxResults
  match t1.2 with
  | some results => (results, t1.1)
  | none =>
    -- Strategy 2: simplified keywords search
    let simple_keywords := extract_simple_keywords intent.keywords_raw
    let t2 :=
      if simple_keywords ≠ [] then
        tryLevel fetch searchType t1.1 2
          (joinSep " OR " (simple_keywords.take 2))
          [("geoIncluded", dictGetD filters.native_filters "geoIncluded" ""),
           ("currentJobTitle", "true")]
          maxResults
      else (t1.1, none)
    match t2.2 with
    | some results => (results, t2.1)
    | none =>
      -- Strategy 3: minimal search (location only)
      let t3 := tryLevel fetch searchType t2.1 3
        (simple_keywords.headD "developer")
        [("geoIncluded", dictGetD filters.native_filters "geoIncluded" "")]
        maxResults
      match t3.2 with
      | some results => (results, t3.1)
      | none =>
        -- Strategy 4: OR-based broadening for AI post-processing
        let t4 := tryLevel fetch searchType t3.1 4
          (create_or_broadening_query intent)
          (create_or_broadening_filters intent)
          (maxResults * 2)
        match t4.2 with
        | some results => (results.map (tagBroadening intent), t4.1)
        | none =>
          -- Strategy 5: ultra-broad location-only search
          let t5 :=
            if intent.locations ≠ [] then
              tryLevel fetch searchType t4.1 5
                "developer OR manager OR founder"
                [("geoIncluded", joinSep "," intent.locations),
                 ("currentJobTitle", "true")]
                (maxResults * 3)
            else (t4.1, none)
          match t5.2 with
          | some results => (results.map (tagUltraBroad intent), t5.1)
          | none => ([], t5.1)

/-- Number of `record_search` reports the RateLimiter receives in a trace. -/
def recordedSearches (trace : List SNEvent) : ℕ :=
  trace.countP (fun e => match e with
    | SNEvent.recordSearchCall _ => true
    | _ => false)

/-- Number of `can_search` consultations of the RateLimiter in a trace. -/
def canSearchCalls (trace : List SNEvent) : ℕ :=
  trace.countP (fun e => match e with
    | SNEvent.canSearchCall => true
    | _ => false)

/-- The ladder levels actually fetched, in trace order. -/
def fetchedLevels (trace : List SNEvent) : List ℕ :=
  trace.filterMap (fun e => match e with
    | SNEvent.fetchAttempt level _ _ _ => some level
    | _ => none)

/-! ## Concrete collaborators and inputs used in scenarios -/

/-- A stub collaborator whose extraction always comes back empty. -/
def emptyFetch : FetchExtract := fun _ _ _ _ _ => Except.ok []

/-- A stub collaborator returning `rs` at ladder level `k` and an empty
extraction at every other level. -/
def stubAt (k : ℕ) (rs : List SNResult) : FetchExtract :=
  fun level _ _ _ _ => if level = k then Except.ok rs else Except.ok []

/-- Replace every exception the collaborator raises by an empty extraction. -/
def normalizeFetch (f : FetchExtract) : FetchExtract :=
  fun level st kw nf c =>
    match f level st kw nf c with
    | Except.ok rs => Except.ok rs
    | Except.error _ => Except.ok []

/-- A raw extracted record, carrying no controller metadata. -/
def rawResult : SNResult := { fields := [("name", "Jane Doe"), ("title", "CTO")] }

/-- A concrete parsed-filters value whose intent has simple keywords and a
location, so every ladder level is fetchable. -/
def cFilters : SearchFilters :=
  { keywords := "(\"developer\")"
    native_filters := [("geoIncluded", "Valencia"), ("currentJobTitle", "true")]
    intent :=
      { roles := ["developer"]
        skills := []
        locations := ["Valencia"]
        company_size := none
        company_funding := none
        seniority := []
        keywords_raw := "javascript developers valencia" } }

/-- A concrete parsed-filters value whose intent detected no locations, so
ladder level 5 is skipped. -/
def noLocFilters : SearchFilters :=
  { keywords := "kw"
    native_filters := [("currentJobTitle", "true")]
    intent :=
      { roles := []
        skills := []
        locations := []
        company_size := none
        company_funding := none
        seniority := []
        keywords_raw := "standalone consultants berlin" } }

/-! ## Helper lemmas -/

/-- `reset_if_needed` never touches the timestamps, the block, the
consecutive-failure backoff base data used outside the daily window, or the
persisted continuous-search counter. -/
theorem reset_if_needed_untouched (nowDate nowHour : ℕ) (s : RLState) :
    (reset_if_needed nowDate nowHour s).last_search_time = s.last_search_time ∧
    (reset_if_needed nowDate nowHour s).last_profile_time = s.last_profile_time ∧
    (reset_if_needed nowDate nowHour s).last_break_time = s.last_break_time ∧
    (reset_if_needed nowDate nowHour s).blocked_until = s.blocked_until ∧
    (reset_if_needed nowDate nowHour s).continuous_searches = s.continuous_searches := by
  unfold reset_if_needed
  dsimp only
  split <;> split <;> simp

/-- With an unchanged date, `reset_if_needed` preserves all daily data. -/
theorem reset_if_needed_same_date (nowHour : ℕ) (s : RLState) :
    (reset_if_needed s.last_reset_date nowHour s).daily_searches = s.daily_searches ∧
    (reset_if_needed s.last_reset_date nowHour s).daily_profiles = s.daily_profiles ∧
    (reset_if_needed s.last_reset_date nowHour s).last_reset_date = s.last_reset_date ∧
    (reset_if_needed s.last_reset_date nowHour s).consecutive_failures = s.consecutive_failures ∧
    (reset_if_needed s.last_reset_date nowHour s).total_failures_today = s.total_failures_today := by
  unfold reset_if_needed
  dsimp only
  simp only [ne_eq, not_true_eq_false, if_neg, ite_false, not_false_eq_true]
  split <;> simp

@[simp]
theorem tryLevel_fst (fetch : FetchExtract) (st : String) (ev : List SNEvent)
    (l : ℕ) (kw : String) (nf : List (String × String)) (c : ℕ) :
    (tryLevel fetch st ev l kw nf c).1 = ev ++ [SNEvent.fetchAttempt l kw nf c] := by
  unfold tryLevel
  dsimp only
  cases fetch l st kw nf c <;> rfl

theorem tryLevel_normalize (fetch : FetchExtract) (st : String) (ev : List SNEvent)
    (l : ℕ) (kw : String) (nf : List (String × String)) (c : ℕ) :
    tryLevel (normalizeFetch fetch) st ev l kw nf c = tryLevel fetch st ev l kw nf c := by
  unfold tryLevel normalizeFetch
  dsimp only
  cases fetch l st kw nf c <;> simp

theorem tryLevel_none (fetch : FetchExtract) (st : String) (ev : List SNEvent)
    (l : ℕ) (kw : String) (nf : List (String × String)) (c : ℕ)
    (h : fetch l st kw nf c = Except.ok [] ∨ ∃ e, fetch l st kw nf c = Except.error e) :
    (tryLevel fetch st ev l kw nf c).2 = none := by
  unfold tryLevel
  dsimp only
  rcases h with h | ⟨e, h⟩ <;> rw [h] <;> rfl

@[simp]
theorem recordedSearches_nil : recordedSearches [] = 0 := rfl

@[simp]
theorem recordedSearches_append (a b : List SNEvent) :
    recordedSearches (a ++ b) = recordedSearches a + recordedSearches b :=
  List.countP_append _ _ _

@[simp]
theorem recordedSearches_fetch (l : ℕ) (kw : String) (nf : List (String × String))
    (c : ℕ) : recordedSearches [SNEvent.fetchAttempt l kw nf c] = 0 := rfl

@[simp]
theorem recordedSearches_cons_fetch (l : ℕ) (kw : String)
    (nf : List (String × String)) (c : ℕ) (rest : List SNEvent) :
    recordedSearches (SNEvent.fetchAttempt l kw nf c :: rest) =
      recordedSearches rest := by
  simp [recordedSearches, List.countP_cons]

@[simp]
theorem canSearchCalls_nil : canSearchCalls [] = 0 := rfl

@[simp]
theorem canSearchCalls_append (a b : List SNEvent) :
    canSearchCalls (a ++ b) = canSearchCalls a + canSearchCalls b :=
  List.countP_append _ _ _

@[simp]
theorem canSearchCalls_fetch (l : ℕ) (kw : String) (nf : List (String × String))
    (c : ℕ) : canSearchCalls [SNEvent.fetchAttempt l kw nf c] = 0 := rfl

@[simp]
theorem canSearchCalls_cons_fetch (l : ℕ) (kw : String)
    (nf : List (String × String)) (c : ℕ) (rest : List SNEvent) :
    canSearchCalls (SNEvent.fetchAttempt l kw nf c :: rest) =
      canSearchCalls rest := by
  simp [canSearchCalls, List.countP_cons]

@[simp]
theorem fetchedLevels_nil : fetchedLevels [] = [] := rfl

@[simp]
theorem fetchedLevels_append (a b : List SNEvent) :
    fetchedLevels (a ++ b) = fetchedLevels a ++ fetchedLevels b :=
  List.filterMap_append _ _ _

@[simp]
theorem fetchedLevels_fetch (l : ℕ) (kw : String) (nf : List (String × String))
    (c : ℕ) : fetchedLevels [SNEvent.fetchAttempt l kw nf c] = [l] := rfl

@[simp]
theorem fetchedLevels_cons_fetch (l : ℕ) (kw : String)
    (nf : List (String × String)) (c : ℕ) (rest : List SNEvent) :
    fetchedLevels (SNEvent.fetchAttempt l kw nf c :: rest) =
      l :: fetchedLevels rest := by
  simp [fetchedLevels]

/-! ## Claim C3 — daily/hourly rollover -/

/-- C3 counterexample: a state-touching call on a new day does **not** zero
the persisted continuous-search count.  Starting from a state with
`continuous_searches = 4` and stored date `0`, a rollover at date `1` fires
the daily branch (the stored date is updated to `1`) yet leaves
`continuous_searches` at `4`, contradicting the claim that it is reset to
zero. -/
theorem rollover_keeps_continuous_searches_cx :
    (reset_if_needed 1 0 { initialRLState 0 0 with continuous_searches := 4 }).last_reset_date = 1 ∧
    (reset_if_needed 1 0 { initialRLState 0 0 with continuous_searches := 4 }).continuous_searches = 4 ∧
    (4 : ℕ) ≠ 0 := by
  refine ⟨?_, ?_, by decide⟩ <;> rfl

/-- C3 (amended): a state-touching call whose current date differs from
`last_reset_date` zeroes `daily_searches`, `daily_profiles`,
`daily_connections` and `total_failures_today`, decrements
`consecutive_failures` by exactly one floored at zero, sets `last_reset_date`
to the current date, and zeroes the in-memory session `continuous_actions`
counter while leaving the persisted `continuous_searches` count unchanged;
independently, whenever the current hour differs from `last_hour_reset` it
zeroes `hourly_searches` and `hourly_profiles` and updates `last_hour_reset`. -/
theorem rollover_spec (s : RLState) (d h : ℕ) :
    (d ≠ s.last_reset_date →
      (reset_if_needed d h s).daily_searches = 0 ∧
      (reset_if_needed d h s).daily_profiles = 0 ∧
      (reset_if_needed d h s).daily_connections = 0 ∧
      (reset_if_needed d h s).total_failures_today = 0 ∧
      (reset_if_needed d h s).consecutive_failures = s.consecutive_failures - 1 ∧
      (reset_if_needed d h s).last_reset_date = d ∧
      (reset_if_needed d h s).continuous_searches = s.continuous_searches ∧
      (reset_if_needed d h s).continuous_actions = 0) ∧
    (h ≠ s.last_hour_reset →
      (reset_if_needed d h s).hourly_searches = 0 ∧
      (reset_if_needed d h s).hourly_profiles = 0 ∧
      (reset_if_needed d h s).last_hour_reset = h) ∧
    (h = s.last_hour_reset →
      (reset_if_needed d h s).hourly_searches = s.hourly_searches ∧
      (reset_if_needed d h s).hourly_profiles = s.hourly_profiles) := by
  unfold reset_if_needed
  dsimp only
  refine ⟨fun hd => ?_, fun hh => ?_, fun hh => ?_⟩
  · simp only [ne_eq, hd, not_false_eq_true, if_true, ite_true]
    split <;> simp
  · split <;> simp_all
  · split <;> simp_all

/-- C4 counterexample: with zero consecutive failures the returned delay can
exceed `max_delay`, because the ±20% jitter is added after clamping: for the
search action type (`min = 45`, `max = 180`), a gauss draw at the upper clamp
and a maximal jitter draw return `216 > 180`. -/
theorem get_delay_jitter_exceeds_max_cx :
    get_delay defaultLimits true 180 1 0 = 216 ∧
    defaultLimits.max_delay_between_searches < 216 := by
  constructor
  · norm_num [get_delay, min_delay_for, max_delay_for, defaultLimits]
  · norm_num [defaultLimits]

/-- C4 (amended): with `consecutive_failures = 0` the returned delay lies in
`[min_delay, max_delay * (1 + jitter_range)]` for the chosen action type (the
jitter is applied after clamping to `[min_delay, max_delay]`, so the upper
bound exceeds `max_delay` by up to the jitter fraction); with
`consecutive_failures > 0` the clamped base delay is multiplied by
`backoff_multiplier ^ consecutive_failures` and capped at `max_backoff`
before the jitter is added, and the final result is floored at the configured
minimum. -/
theorem get_delay_spec (limits : Limits) (isSearch : Bool) (g u : ℚ) (cf : ℕ)
    (hmin : 0 ≤ min_delay_for limits isSearch)
    (hmm : min_delay_for limits isSearch ≤ max_delay_for limits isSearch)
    (hjr : 0 ≤ limits.jitter_range)
    (hu1 : -1 ≤ u) (hu2 : u ≤ 1) :
    (cf = 0 →
      min_delay_for limits isSearch ≤ get_delay limits isSearch g u cf ∧
      get_delay limits isSearch g u cf ≤
        max_delay_for limits isSearch * (1 + limits.jitter_range)) ∧
    (0 < cf →
      get_delay limits isSearch g u cf =
        max (min_delay_for limits isSearch)
          (min
            (max (min_delay_for limits isSearch)
              (min (max_delay_for limits isSearch) g) *
              limits.backoff_multiplier ^ cf)
            limits.max_backoff +
            u * (max (min_delay_for limits isSearch)
              (min (max_delay_for limits isSearch) g) * limits.jitter_range))) := by
  constructor
  · rintro rfl
    unfold get_delay
    dsimp only
    rw [if_neg (by omega)]
    set minD := min_delay_for limits isSearch with hminD
    set maxD := max_delay_for limits isSearch with hmaxD
    set b := max minD (min maxD g) with hb
    have hb0 : 0 ≤ b := le_trans hmin (le_max_left _ _)
    have hbmax : b ≤ maxD := max_le hmm (min_le_left _ _)
    constructor
    · exact le_max_left _ _
    · apply max_le
      · nlinarith
      · nlinarith [mul_nonneg (mul_nonneg hb0 hjr) (sub_nonneg.mpr hu2)]
  · intro hcf
    unfold get_delay
    dsimp only
    rw [if_pos hcf]

/-- C4 witness: both halves of the amended delay specification at concrete
inputs (zero failures with a mid-range gauss draw; two failures with a draw
at the clamp and maximal jitter). -/
theorem get_delay_spec_witness :
    (min_delay_for defaultLimits true ≤ get_delay defaultLimits true 100 (1/2) 0 ∧
      get_delay defaultLimits true 100 (1/2) 0 ≤
        max_delay_for defaultLimits true * (1 + defaultLimits.jitter_range)) ∧
    get_delay defaultLimits true 180 1 2 =
      max (min_delay_for defaultLimits true)
        (min
          (max (min_delay_for defaultLimits true)
            (min (max_delay_for defaultLimits true) 180) *
            defaultLimits.backoff_multiplier ^ 2)
          defaultLimits.max_backoff +
          1 * (max (min_delay_for defaultLimits true)
            (min (max_delay_for defaultLimits true) 180) * defaultLimits.jitter_range)) := by
  constructor
  · exact (get_delay_spec defaultLimits true 100 (1/2) 0 (by norm_num [min_delay_for, defaultLimits])
      (by norm_num [min_delay_for, max_delay_for, defaultLimits])
      (by norm_num [defaultLimits]) (by norm_num) (by norm_num)).1 rfl
  · exact (get_delay_spec defaultLimits true 180 1 2 (by norm_num [min_delay_for, defaultLimits])
      (by norm_num [min_delay_for, max_delay_for, defaultLimits])
      (by norm_num [defaultLimits]) (by norm_num) (by norm_num)).2 (by norm_num)

/-- C5: a failed `record_search` increments `consecutive_failures` and
`total_failures_today`; once `consecutive_failures` reaches 3 the block
expiry is recomputed (not added to) as
`now + min (300 * 2 ^ (consecutive_failures - 3)) 3600`, so a third
consecutive failure gives `now + 300` and a fourth failure before expiry
gives `now + 600`; a successful `record_search` resets
`consecutive_failures` to zero. -/
theorem record_search_failure_spec (s : RLState) (now : ℚ) :
    (record_search false now s).consecutive_failures = s.consecutive_failures + 1 ∧
    (record_search false now s).total_failures_today = s.total_failures_today + 1 ∧
    (3 ≤ s.consecutive_failures + 1 →
      (record_search false now s).blocked_until =
        now + min (300 * 2 ^ (s.consecutive_failures + 1 - 3)) 3600) ∧
    (s.consecutive_failures + 1 < 3 →
      (record_search false now s).blocked_until = s.blocked_until) ∧
    (record_search true now s).consecutive_failures = 0 ∧
    (∀ t t' : ℚ, s.consecutive_failures = 0 →
      (record_search false t (record_search false t
        (record_search false t s))).consecutive_failures = 3 ∧
      (record_search false t (record_search false t
        (record_search false t s))).blocked_until = t + 300 * 2 ^ (0 : ℕ) ∧
      (record_search false t' (record_search false t (record_search false t
        (record_search false t s)))).blocked_until = t' + 300 * 2 ^ (1 : ℕ)) := by
  have base : ∀ (s : RLState) (now : ℚ),
      (record_search false now s).consecutive_failures = s.consecutive_failures + 1 ∧
      (record_search false now s).total_failures_today = s.total_failures_today + 1 ∧
      (3 ≤ s.consecutive_failures + 1 →
        (record_search false now s).blocked_until =
          now + min (300 * 2 ^ (s.consecutive_failures + 1 - 3)) 3600) ∧
      (s.consecutive_failures + 1 < 3 →
        (record_search false now s).blocked_until = s.blocked_until) := by
    intro s now
    unfold record_search
    dsimp only
    rw [if_neg Bool.false_ne_true]
    refine ⟨?_, ?_, fun h3 => ?_, fun h3 => ?_⟩
    · split <;> rfl
    · split <;> rfl
    · rw [if_pos h3]
    · rw [if_neg (by omega)]
  refine ⟨(base s now).1, (base s now).2.1, (base s now).2.2.1, (base s now).2.2.2,
    by unfold record_search; dsimp only; rw [if_pos rfl], fun t t' h0 => ?_⟩
  have h1 := base s t
  have h2 := base (record_search false t s) t
  have h3 := base (record_search false t (record_search false t s)) t
  have h4 := base (record_search false t (record_search false t
    (record_search false t s))) t'
  have e1 : (record_search false t s).consecutive_failures = 1 := by
    rw [h1.1, h0]
  have e2 : (record_search false t (record_search false t s)).consecutive_failures = 2 := by
    rw [h2.1, e1]
  have e3 : (record_search false t (record_search false t
      (record_search false t s))).consecutive_failures = 3 := by
    rw [h3.1, e2]
  refine ⟨e3, ?_, ?_⟩
  · have := h3.2.2.1 (by omega)
    rw [e2] at this
    simpa using this
  · have := h4.2.2.1 (by omega)
    rw [e3] at this
    rw [this]
    norm_num

/-- C5 witness: the third consecutive failure installs a 300-second block at
a concrete state and time. -/
theorem record_search_failure_spec_witness :
    (record_search false 50 { initialRLState 0 0 with consecutive_failures := 2 }).blocked_until =
      50 + min (300 * 2 ^ (2 + 1 - 3)) 3600 :=
  (record_search_failure_spec { initialRLState 0 0 with consecutive_failures := 2 } 50).2.2.1
    (by decide)

set_option maxHeartbeats 2000000 in
/-- C7 counterexample: `blocked_until` is **not** monotonically set forward
across ordinary operations at non-decreasing times.  All at time 0: seven
consecutive failed `record_search` calls drive the block duration to the
3600-second cap, a success resets `consecutive_failures`, and a fresh streak
of three failures recomputes `blocked_until` as `0 + 300` — a decrease from
3600. -/
theorem blocked_until_decreases_cx :
    (record_search false 0 (record_search false 0 (record_search false 0
      (record_search false 0 (record_search false 0 (record_search false 0
        (record_search false 0 (initialRLState 0 0)))))))).blocked_until = 3600 ∧
    (record_search false 0 (record_search false 0 (record_search false 0
      (record_search true 0
        (record_search false 0 (record_search false 0 (record_search false 0
          (record_search false 0 (record_search false 0 (record_search false 0
            (record_search false 0 (initialRLState 0 0)))))))))))).blocked_until = 300 ∧
    (300 : ℚ) < 3600 := by
  refine ⟨?_, ?_, by norm_num⟩ <;> norm_num [record_search, initialRLState, min_def]

/-- C7 (amended): `blocked_until` is never set into the past: each ordinary
operation either leaves it unchanged or recomputes it to at least 300 seconds
after the operation's own time (`emergency_stop` to exactly one hour after);
it is not monotone across a sequence, since a failed `record_search` recomputes
it from scratch and can land below a previously installed longer block. -/
theorem blocked_until_never_set_into_past (s : RLState) (now : ℚ) (success : Bool)
    (d h : ℕ) :
    ((record_search success now s).blocked_until = s.blocked_until ∨
      now + 300 ≤ (record_search success now s).blocked_until) ∧
    (record_profile_view success now s).blocked_until = s.blocked_until ∧
    (reset_if_needed d h s).blocked_until = s.blocked_until ∧
    (reset_session now s).blocked_until = s.blocked_until ∧
    (emergency_stop now s).blocked_until = now + 3600 := by
  refine ⟨?_, ?_, (reset_if_needed_untouched d h s).2.2.2.1, rfl, rfl⟩
  · unfold record_search
    dsimp only
    split
    · exact Or.inl rfl
    · split
      · refine Or.inr ?_
        have h2 : (1 : ℚ) ≤ 2 ^ (s.consecutive_failures + 1 - 3) :=
          one_le_pow₀ (by norm_num)
        have hm : (300 : ℚ) ≤ min (300 * 2 ^ (s.consecutive_failures + 1 - 3)) 3600 :=
          le_min (by nlinarith) (by norm_num)
        show now + 300 ≤ now + min (300 * 2 ^ (s.consecutive_failures + 1 - 3)) 3600
        linarith
      · exact Or.inl rfl
  · unfold record_profile_view
    dsimp only
    split <;> rfl

/-- C6: once `daily_searches` has reached the configured daily limit `N` (and
the state is not inside a temporary block, which is checked first), any
`can_search` call on the same stored date refuses with reason exactly
`"Daily search limit reached (N searches)"`; in particular with
`searches_per_day = 2`, after exactly two recorded searches the refusal reason
is `"Daily search limit reached (2 searches)"`; and the refusal leaves
`daily_searches`, the stored date and `blocked_until` unchanged, so every
further call on the same date refuses again. -/
theorem can_search_daily_limit (limits : Limits) (s : RLState) (now brk : ℚ)
    (d h : ℕ) :
    (s.last_reset_date = d → s.blocked_until ≤ now →
      limits.searches_per_day ≤ s.daily_searches →
      can_search limits now d h brk s =
        (false,
          "Daily search limit reached (" ++ toString limits.searches_per_day ++
            " searches)",
          reset_if_needed d h s)) ∧
    (s.last_reset_date = d →
      (reset_if_needed d h s).daily_searches = s.daily_searches ∧
      (reset_if_needed d h s).last_reset_date = d ∧
      (reset_if_needed d h s).blocked_until = s.blocked_until) ∧
    (0 ≤ now →
      can_search { defaultLimits with searches_per_day := 2 } now d h brk
          (record_search true 1 (record_search true 0 (initialRLState d h))) =
        (false, "Daily search limit reached (2 searches)",
          reset_if_needed d h
            (record_search true 1 (record_search true 0 (initialRLState d h))))) := by
  have main : ∀ (limits : Limits) (s : RLState) (now brk : ℚ) (d h : ℕ),
      s.last_reset_date = d → s.blocked_until ≤ now →
      limits.searches_per_day ≤ s.daily_searches →
      can_search limits now d h brk s =
        (false,
          "Daily search limit reached (" ++ toString limits.searches_per_day ++
            " searches)",
          reset_if_needed d h s) := by
    intro limits s now brk d h hdate hblock hdaily
    subst hdate
    have hb := (reset_if_needed_untouched s.last_reset_date h s).2.2.2.1
    have hds := (reset_if_needed_same_date h s).1
    unfold can_search
    dsimp only
    rw [if_neg (by rw [hb]; exact not_lt.mpr hblock),
      if_pos (by rw [hds]; exact hdaily)]
  refine ⟨fun hdate hblock hdaily => main limits s now brk d h hdate hblock hdaily,
    fun hdate => ?_, fun hnow => ?_⟩
  · subst hdate
    exact ⟨(reset_if_needed_same_date h s).1, (reset_if_needed_same_date h s).2.2.1,
      (reset_if_needed_untouched s.last_reset_date h s).2.2.2.1⟩
  · exact main { defaultLimits with searches_per_day := 2 }
      (record_search true 1 (record_search true 0 (initialRLState d h))) now brk d h
      rfl (by exact hnow) (by norm_num [record_search, initialRLState])

/-- C6 witness: with `searches_per_day = 2`, two successful recorded searches
followed by a `can_search` call at time 5 on the same date refuse with the
exact daily-limit reason. -/
theorem can_search_daily_limit_witness :
    can_search { defaultLimits with searches_per_day := 2 } 5 0 0 0
        (record_search true 1 (record_search true 0 (initialRLState 0 0))) =
      (false, "Daily search limit reached (2 searches)",
        reset_if_needed 0 0
          (record_search true 1 (record_search true 0 (initialRLState 0 0)))) :=
  (can_search_daily_limit { defaultLimits with searches_per_day := 2 }
    (record_search true 1 (record_search true 0 (initialRLState 0 0))) 5 0 0 0).2.2
    (by norm_num)

/-- A concrete state that is blocked until time 100 but has room in both
profile quotas and a long-elapsed profile delay. -/
def blockedProfileState : RLState :=
  { initialRLState 0 0 with
    blocked_until := 100
    daily_profiles := 1
    hourly_profiles := 1 }

set_option maxHeartbeats 1000000 in
/-- C10: `can_view_profile` never consults `blocked_until`, the
continuous-search counter or the consecutive-failure backoff — its decision
and reason are invariant under changing those fields — and even with
`blocked_until` in the future it returns `(true, "OK")` whenever the daily
and hourly profile counters are below their limits and at least
`min_delay_between_profiles` seconds have elapsed since `last_profile_time`. -/
theorem can_view_profile_ignores_block (limits : Limits) (s : RLState)
    (now b : ℚ) (n1 n2 : ℕ) (d h : ℕ) :
    ((can_view_profile limits now d h { s with blocked_until := b }).1 =
        (can_view_profile limits now d h s).1 ∧
      (can_view_profile limits now d h { s with blocked_until := b }).2.1 =
        (can_view_profile limits now d h s).2.1) ∧
    ((can_view_profile limits now d h
          { s with continuous_searches := n1, consecutive_failures := n2 }).1 =
        (can_view_profile limits now d h s).1 ∧
      (can_view_profile limits now d h
          { s with continuous_searches := n1, consecutive_failures := n2 }).2.1 =
        (can_view_profile limits now d h s).2.1) ∧
    (now < s.blocked_until →
      s.daily_profiles < limits.profiles_per_day →
      s.hourly_profiles < limits.profiles_per_hour →
      limits.min_delay_between_profiles ≤ now - s.last_profile_time →
      (can_view_profile limits now d h s).1 = true ∧
      (can_view_profile limits now d h s).2.1 = "OK") := by
  refine ⟨?_, ?_, fun hfut hdp hhp hdelay => ?_⟩
  · constructor <;>
      (unfold can_view_profile reset_if_needed; dsimp only; split_ifs <;> rfl)
  · constructor <;>
      (unfold can_view_profile reset_if_needed; dsimp only; split_ifs <;> rfl)
  · have hlt := (reset_if_needed_untouched d h s).2.1
    have hdcases : (reset_if_needed d h s).daily_profiles = s.daily_profiles ∨
        (reset_if_needed d h s).daily_profiles = 0 := by
      unfold reset_if_needed; dsimp only; split_ifs <;> simp
    have hhcases : (reset_if_needed d h s).hourly_profiles = s.hourly_profiles ∨
        (reset_if_needed d h s).hourly_profiles = 0 := by
      unfold reset_if_needed; dsimp only; split_ifs <;> simp
    have h1 : ¬ (limits.profiles_per_day ≤ (reset_if_needed d h s).daily_profiles) := by
      rcases hdcases with e | e <;> rw [e] <;> omega
    have h2 : ¬ (limits.profiles_per_hour ≤ (reset_if_needed d h s).hourly_profiles) := by
      rcases hhcases with e | e <;> rw [e] <;> omega
    have h3 : ¬ (now - (reset_if_needed d h s).last_profile_time <
        limits.min_delay_between_profiles) := by
      rw [hlt]; linarith
    unfold can_view_profile
    dsimp only
    rw [if_neg h1, if_neg h2, if_neg h3]
    exact ⟨rfl, rfl⟩

/-- C10 witness: a state blocked until time 100 still passes
`can_view_profile` at time 10 when the profile counters and delay allow. -/
theorem can_view_profile_ignores_block_witness :
    (10 : ℚ) < blockedProfileState.blocked_until ∧
    (can_view_profile defaultLimits 10 0 0 blockedProfileState).1 = true := by
  refine ⟨by norm_num [blockedProfileState, initialRLState], ?_⟩
  exact ((can_view_profile_ignores_block defaultLimits blockedProfileState
    10 0 0 0 0 0).2.2 (by norm_num [blockedProfileState, initialRLState])
    (by decide) (by decide)
    (by norm_num [blockedProfileState, initialRLState, defaultLimits])).1

/-- C8: the optimized keyword expression depends only on the first 2 roles
and first 2 skills of the intent — matches beyond those are never included —
and for an intent with exactly 3 matched roles and no skills the output is
literally the parenthesized OR of the first two quoted roles, containing 2
role terms and never the third. -/
theorem optimized_keywords_caps_roles :
    (∀ intent : Intent,
      generate_optimized_keywords intent =
        generate_optimized_keywords
          { intent with roles := intent.roles.take 2, skills := intent.skills.take 2 }) ∧
    (∀ (r1 r2 r3 : String) (more locs sen : List String) (cs cf : Option String)
        (raw : String),
      generate_optimized_keywords
          { roles := r1 :: r2 :: r3 :: more, skills := [], locations := locs,
            company_size := cs, company_funding := cf, seniority := sen,
            keywords_raw := raw } =
        "(\"" ++ r1 ++ "\" OR \"" ++ r2 ++ "\")") := by
  constructor
  · intro intent
    unfold generate_optimized_keywords
    dsimp only
    by_cases hr : intent.roles = [] <;> by_cases hsk : intent.skills = [] <;>
      simp [hr, hsk, List.take_take, List.take_eq_nil_iff]
  · intro r1 r2 r3 more locs sen cs cf raw
    show "(" ++ (("\"" ++ r1 ++ "\"") ++ " OR " ++ ("\"" ++ r2 ++ "\"")) ++ ")" =
      "(\"" ++ r1 ++ "\" OR \"" ++ r2 ++ "\")"
    simp [String.ext_iff]

/-- C9: the progressive-fallback controller never propagates a fetch or
extraction exception: its behaviour is unchanged when every raised exception
is replaced by an empty extraction (each ladder level catches its own
errors and advances), and when every level yields an empty extraction or an
error the controller returns the empty list. -/
theorem progressive_fallback_catches_errors (fetch : FetchExtract) (st : String)
    (filters : SearchFilters) (n : ℕ) :
    search_with_progressive_fallback (normalizeFetch fetch) st filters n =
      search_with_progressive_fallback fetch st filters n ∧
    ((∀ l kw nf c, fetch l st kw nf c = Except.ok [] ∨
        ∃ e, fetch l st kw nf c = Except.error e) →
      (search_with_progressive_fallback fetch st filters n).1 = []) := by
  constructor
  · unfold search_with_progressive_fallback
    simp only [tryLevel_normalize]
  · intro hall
    unfold search_with_progressive_fallback
    dsimp only
    rw [tryLevel_none fetch st _ _ _ _ _ (hall _ _ _ _)]
    dsimp only
    by_cases hs : extract_simple_keywords filters.intent.keywords_raw ≠ []
    · rw [if_pos hs, tryLevel_none fetch st _ _ _ _ _ (hall _ _ _ _)]
      dsimp only
      rw [tryLevel_none fetch st _ _ _ _ _ (hall _ _ _ _)]
      dsimp only
      rw [tryLevel_none fetch st _ _ _ _ _ (hall _ _ _ _)]
      dsimp only
      by_cases hl : filters.intent.locations ≠ []
      · rw [if_pos hl, tryLevel_none fetch st _ _ _ _ _ (hall _ _ _ _)]
      · rw [if_neg hl]
    · rw [if_neg hs]
      dsimp only
      rw [tryLevel_none fetch st _ _ _ _ _ (hall _ _ _ _)]
      dsimp only
      rw [tryLevel_none fetch st _ _ _ _ _ (hall _ _ _ _)]
      dsimp only
      by_cases hl : filters.intent.locations ≠ []
      · rw [if_pos hl, tryLevel_none fetch st _ _ _ _ _ (hall _ _ _ _)]
      · rw [if_neg hl]

/-- C9 witness: the always-empty collaborator makes the controller return the
empty list on a concrete query. -/
theorem progressive_fallback_catches_errors_witness :
    (search_with_progressive_fallback emptyFetch "people" cFilters 10).1 = [] :=
  (progressive_fallback_catches_errors emptyFetch "people" cFilters 10).2
    (fun _ _ _ _ => Or.inl rfl)

/-- C1 counterexample: with a stub collaborator that always returns empty,
the controller walks all five ladder levels yet the RateLimiter receives 0
recorded attempts, not 5 — the source of `search_with_progressive_fallback`
never calls `can_search` or `record_search` at all. -/
theorem controller_no_rate_limiter_cx :
    fetchedLevels (search_with_progressive_fallback emptyFetch "people" cFilters 10).2 =
      [1, 2, 3, 4, 5] ∧
    recordedSearches (search_with_progressive_fallback emptyFetch "people" cFilters 10).2 = 0 ∧
    canSearchCalls (search_with_progressive_fallback emptyFetch "people" cFilters 10).2 = 0 ∧
    (0 : ℕ) ≠ 5 := by
  refine ⟨by rfl, by rfl, by rfl, by decide⟩

/-- C1 (amended): the controller never consults the RateLimiter: for every
collaborator and query its interaction trace contains no `can_search`
consultation and no `record_search` report; and with a stub that always
returns empty (its simple keywords and locations non-empty so no ladder level
is skipped) it attempts levels 1–5 in order, returns the empty list, and the
RateLimiter receives exactly 0 recorded attempts. -/
theorem controller_never_consults_rate_limiter :
    (∀ (fetch : FetchExtract) (st : String) (filters : SearchFilters) (n : ℕ),
      recordedSearches (search_with_progressive_fallback fetch st filters n).2 = 0 ∧
      canSearchCalls (search_with_progressive_fallback fetch st filters n).2 = 0) ∧
    (∀ (st : String) (filters : SearchFilters) (n : ℕ),
      extract_simple_keywords filters.intent.keywords_raw ≠ [] →
      filters.intent.locations ≠ [] →
      fetchedLevels (search_with_progressive_fallback emptyFetch st filters n).2 =
        [1, 2, 3, 4, 5] ∧
      (search_with_progressive_fallback emptyFetch st filters n).1 = []) := by
  constructor
  · intro fetch st filters n
    constructor
    · unfold search_with_progressive_fallback
      dsimp only
      repeat' split
      all_goals simp
    · unfold search_with_progressive_fallback
      dsimp only
      repeat' split
      all_goals simp
  · intro st filters n hs hl
    simp [search_with_progressive_fallback, tryLevel, emptyFetch, hs, hl]

/-- C1 witness: the no-skip ladder walk with zero recorded attempts at a
concrete query. -/
theorem controller_never_consults_rate_limiter_witness :
    fetchedLevels (search_with_progressive_fallback emptyFetch "companies" cFilters 7).2 =
      [1, 2, 3, 4, 5] ∧
    (search_with_progressive_fallback emptyFetch "companies" cFilters 7).1 = [] :=
  controller_never_consults_rate_limiter.2 "companies" cFilters 7
    (by decide) (by decide)

/-- C2 counterexample: a stub that is non-empty only at level 5 together with
a query whose intent detected no locations: the controller skips level 5
entirely (it fetches only levels 1–4) and returns the empty list instead of
level 5's results. -/
theorem progressive_level5_skipped_cx :
    stubAt 5 [rawResult] 5 "people" "developer OR manager OR founder"
        [("geoIncluded", ""), ("currentJobTitle", "true")] 30 = Except.ok [rawResult] ∧
    ([rawResult] : List SNResult) ≠ [] ∧
    (search_with_progressive_fallback (stubAt 5 [rawResult]) "people" noLocFilters 10).1 = [] ∧
    fetchedLevels
      (search_with_progressive_fallback (stubAt 5 [rawResult]) "people" noLocFilters 10).2 =
      [1, 2, 3, 4] := by
  refine ⟨by rfl, by decide, by rfl, by rfl⟩

/-- C2 (amended): for a stub collaborator that returns a non-empty raw result
set only at level `k` (1 ≤ k ≤ 5) and empty results at every other level,
provided the query yields at least one simple keyword (otherwise level 2 is
skipped without a fetch) and, for `k = 5`, the intent detected at least one
location (otherwise level 5 is skipped), the controller fetches exactly
levels 1..k in order, returns level k's results immediately (tagged by the
level-4 or level-5 tagger when k ∈ {4, 5}), and every returned record
carries `ai_filter_needed = true` if and only if k is 4 or 5. -/
theorem progressive_ladder_first_success (k : ℕ) (rs : List SNResult) (st : String)
    (filters : SearchFilters) (n : ℕ)
    (hk1 : 1 ≤ k) (hk5 : k ≤ 5) (hrs : rs ≠ [])
    (hsimple : extract_simple_keywords filters.intent.keywords_raw ≠ [])
    (hloc : k = 5 → filters.intent.locations ≠ [])
    (hraw : ∀ r ∈ rs, r.ai_filter_needed = none) :
    fetchedLevels (search_with_progressive_fallback (stubAt k rs) st filters n).2 =
      List.range' 1 k ∧
    (search_with_progressive_fallback (stubAt k rs) st filters n).1 =
      (if k = 4 then rs.map (tagBroadening filters.intent)
       else if k = 5 then rs.map (tagUltraBroad filters.intent) else rs) ∧
    (∀ r ∈ (search_with_progressive_fallback (stubAt k rs) st filters n).1,
      (r.ai_filter_needed = some true ↔ (k = 4 ∨ k = 5))) := by
  interval_cases k <;>
    simp_all [search_with_progressive_fallback, tryLevel, stubAt,
      tagBroadening, tagUltraBroad, List.range']

/-- C2 witness: a stub non-empty only at level 4 makes the controller fetch
levels 1–4 and return the tagged level-4 results. -/
theorem progressive_ladder_first_success_witness :
    (search_with_progressive_fallback (stubAt 4 [rawResult]) "people" cFilters 10).1 =
      [rawResult].map (tagBroadening cFilters.intent) ∧
    fetchedLevels
      (search_with_progressive_fallback (stubAt 4 [rawResult]) "people" cFilters 10).2 =
      List.range' 1 4 := by
  have h := progressive_ladder_first_success 4 [rawResult] "people" cFilters 10
    (by norm_num) (by norm_num) (by decide) (by decide) (by decide) (by decide)
  exact ⟨by simpa using h.2.1, h.1⟩

/-- C3 witness: the amended rollover behaviour at a concrete input. -/
theorem rollover_spec_witness :
    (reset_if_needed 7 3 { initialRLState 2 3 with
        daily_searches := 9, consecutive_failures := 2,
        continuous_searches := 4 }).daily_searches = 0 ∧
    (reset_if_needed 7 3 { initialRLState 2 3 with
        daily_searches := 9, consecutive_failures := 2,
        continuous_searches := 4 }).consecutive_failures = 1 ∧
    (reset_if_needed 7 3 { initialRLState 2 3 with
        daily_searches := 9, consecutive_failures := 2,
        continuous_searches := 4 }).continuous_searches = 4 := by
  have h := (rollover_spec { initialRLState 2 3 with
    daily_searches := 9, consecutive_failures := 2,
    continuous_searches := 4 } 7 3).1 (by decide)
  exact ⟨h.1, h.2.2.2.2.1, h.2.2.2.2.2.2.1⟩

end GptResearcher
